import Mathlib

/-!
Shallow embedding of the geolocation client `locator` package
(src/locator.go) and proofs of the specified properties.

Conventions of the embedding:
* Go's two-value returns `(T, error)` become `Except String T` (or an
  `Except` over a dedicated error type for `Get`).
* `time.Duration` values are nanosecond counts modelled as `Nat`
  (`time.Second * 30 = 30000000000`).
* The three package-level mutable variables (`RequestTimeout`,
  `IgnoreIPMethod`, `UserAgent`, lines 12-16 of src/locator.go) are
  modelled as a `Globals` record; a function that reads them at some
  moment takes the `Globals` value current at that moment as an argument.
* JSON marshalling of the request struct is modelled at field level: the
  wire body is the `Request` value passed to `json.Marshal` (the struct
  type's JSON tags are not part of this repository's single source file,
  so no string-level rendering is assumed).
-/

/-- Modelled from the spec: the `Fallbacks` sub-structure of a request
("a fallback-policy sub-structure (booleans for use location-area-code
fallback and use IP fallback)").  The type definition is not in
src/locator.go; its two Boolean fields `LAC` and `IP` are visible at the
composite literal on lines 73-76. -/
structure Fallbacks where
  LAC : Bool
  IP : Bool
  deriving Repr, DecidableEq

/-- Modelled from the spec: an observed cell tower ("mobile
country/network code, location area code, cell ID, signal strength").
No claim inspects these fields; they ride along in the wire body. -/
structure CellTower where
  MobileCountryCode : Int
  MobileNetworkCode : Int
  LocationAreaCode : Int
  CellId : Int
  SignalStrength : Int
  deriving Repr, DecidableEq

/-- Modelled from the spec: an observed Wi-Fi access point ("MAC
identifier, signal strength"). -/
structure WifiAccessPoint where
  MacAddress : String
  SignalStrength : Int
  deriving Repr, DecidableEq

/-- Modelled from the spec: the request record ("device radio type,
list of observed cell towers, list of observed Wi-Fi access points,
optional raw IP address, a flag controlling whether IP-based fallback is
permitted, and a fallback-policy sub-structure").  Field names follow
their uses in src/locator.go lines 71-82.  Go's nil-able pointer
`Fallbacks *Fallbacks` is modelled as `Option Fallbacks` (value view;
a pointer-explicit view for the aliasing claim is given separately
below as `RequestH`). -/
structure Request where
  RadioType : String
  CellTowers : List CellTower
  WifiAccessPoints : List WifiAccessPoint
  IPAddress : String
  ConsiderIp : Bool
  Fallbacks : Option Fallbacks
  deriving Repr, DecidableEq

/-- Modelled from the spec: the normalized response ("resolved
latitude/longitude pair and an accuracy radius (meters)").  The numeric
fields are modelled as rationals; no claim inspects them. -/
structure Response where
  lat : Rat
  lng : Rat
  accuracy : Rat
  deriving Repr, DecidableEq

/-- The three package-level tunables of src/locator.go lines 12-16,
gathered into a record.  A snapshot of this record stands for the values
of the globals at one moment in time. -/
structure Globals where
  RequestTimeout : Nat
  IgnoreIPMethod : Bool
  UserAgent : String
  deriving Repr, DecidableEq

/-- The initial values of the globals: `time.Second * 30`, `false`,
`"GeoTrack/1.0"` (src/locator.go lines 12-16). -/
def initialGlobals : Globals :=
  { RequestTimeout := 30 * 1000000000
    IgnoreIPMethod := false
    UserAgent := "GeoTrack/1.0" }

/-- Service URL constant (src/locator.go line 27). -/
def Mozilla : String := "https://location.services.mozilla.com/v1/geolocate"

/-- Service URL constant (src/locator.go line 28). -/
def Google : String := "https://www.googleapis.com/geolocation/v1/geolocate"

/-- Service URL constant (src/locator.go line 29). -/
def Yandex : String := "http://api.lbs.yandex.net/geolocation"

/-- The `http.Client` value as configured by `New`: only its `Timeout`
field is ever set (src/locator.go lines 49-51 and 63-65). -/
structure httpClient where
  Timeout : Nat
  deriving Repr, DecidableEq

/-- The `base` client of src/locator.go lines 39-42: a standard-dialect
service, holding the request URL and the HTTP client built at
construction time. -/
structure base where
  serviceUrl : String
  client : httpClient
  deriving Repr, DecidableEq

/-- The `yandex` client as constructed by `New` (src/locator.go lines
47-52): the API key is retained in the client and the HTTP client is
built at construction time.  (The `yandex` type declaration itself is
not in src/locator.go; these two fields are the ones its composite
literal in `New` sets.) -/
structure yandex where
  apiKey : String
  client : httpClient
  deriving Repr, DecidableEq

/-- The `Locator` interface value returned by `New`: one of the two
dialect implementations (src/locator.go lines 33-35). -/
inductive Locator where
  | base (l : base)
  | yandex (y : yandex)
  deriving Repr, DecidableEq

/-- Errors surfaced by `(*base).Get`, as distinguishable values.  The
three sentinels model the package variables `ErrBadRequest`,
`ErrForbidden`, `ErrNotFound` (src/locator.go lines 19-23), which are
distinct `errors.New` identities in Go; `errorsNew s` models a fresh
`errors.New(s)` from the default status branch (line 110); `jsonDecode`
models a JSON decode failure (line 113). -/
inductive GoError where
  | ErrBadRequest
  | ErrForbidden
  | ErrNotFound
  | errorsNew (text : String)
  | jsonDecode (text : String)
  deriving Repr, DecidableEq

/-- The message text carried by a `GoError`, as Go's `Error()` would
return it: the sentinels are created from `http.StatusText` of their
status (src/locator.go lines 20-22). -/
def GoError.errText : GoError → String
  | .ErrBadRequest => "Bad Request"
  | .ErrForbidden => "Forbidden"
  | .ErrNotFound => "Not Found"
  | .errorsNew s => s
  | .jsonDecode s => s

/-- Embedding of `net/http.StatusText`: the reason phrase for an HTTP
status code, `""` for an unknown code. -/
def statusText : Nat → String
  | 100 => "Continue"
  | 101 => "Switching Protocols"
  | 102 => "Processing"
  | 103 => "Early Hints"
  | 200 => "OK"
  | 201 => "Created"
  | 202 => "Accepted"
  | 203 => "Non-Authoritative Information"
  | 204 => "No Content"
  | 205 => "Reset Content"
  | 206 => "Partial Content"
  | 207 => "Multi-Status"
  | 208 => "Already Reported"
  | 226 => "IM Used"
  | 300 => "Multiple Choices"
  | 301 => "Moved Permanently"
  | 302 => "Found"
  | 303 => "See Other"
  | 304 => "Not Modified"
  | 305 => "Use Proxy"
  | 307 => "Temporary Redirect"
  | 308 => "Permanent Redirect"
  | 400 => "Bad Request"
  | 401 => "Unauthorized"
  | 402 => "Payment Required"
  | 403 => "Forbidden"
  | 404 => "Not Found"
  | 405 => "Method Not Allowed"
  | 406 => "Not Acceptable"
  | 407 => "Proxy Authentication Required"
  | 408 => "Request Timeout"
  | 409 => "Conflict"
  | 410 => "Gone"
  | 411 => "Length Required"
  | 412 => "Precondition Failed"
  | 413 => "Request Entity Too Large"
  | 414 => "Request URI Too Long"
  | 415 => "Unsupported Media Type"
  | 416 => "Requested Range Not Satisfiable"
  | 417 => "Expectation Failed"
  | 418 => "I\x27m a teapot"
  | 421 => "Misdirected Request"
  | 422 => "Unprocessable Entity"
  | 423 => "Locked"
  | 424 => "Failed Dependency"
  | 425 => "Too Early"
  | 426 => "Upgrade Required"
  | 428 => "Precondition Required"
  | 429 => "Too Many Requests"
  | 431 => "Request Header Fields Too Large"
  | 451 => "Unavailable For Legal Reasons"
  | 500 => "Internal Server Error"
  | 501 => "Not Implemented"
  | 502 => "Bad Gateway"
  | 503 => "Service Unavailable"
  | 504 => "Gateway Timeout"
  | 505 => "HTTP Version Not Supported"
  | 506 => "Variant Also Negotiates"
  | 507 => "Insufficient Storage"
  | 508 => "Loop Detected"
  | 510 => "Not Extended"
  | 511 => "Network Authentication Required"
  | _ => ""

/-- ASCII letter test, as used by `net/url.getScheme`. -/
def isAlphaChar (c : Char) : Bool :=
  (97 ≤ c.toNat && c.toNat ≤ 122) || (65 ≤ c.toNat && c.toNat ≤ 90)

/-- ASCII digit test. -/
def isDigitChar (c : Char) : Bool :=
  48 ≤ c.toNat && c.toNat ≤ 57

/-- Hexadecimal digit test (`net/url.ishex`). -/
def isHexChar (c : Char) : Bool :=
  isDigitChar c || (97 ≤ c.toNat && c.toNat ≤ 102) || (65 ≤ c.toNat && c.toNat ≤ 70)

/-- Value of a hexadecimal digit (`net/url.unhex`); 0 for non-digits. -/
def unhex (c : Char) : Nat :=
  if isDigitChar c then c.toNat - 48
  else if 97 ≤ c.toNat && c.toNat ≤ 102 then c.toNat - 97 + 10
  else if 65 ≤ c.toNat && c.toNat ≤ 70 then c.toNat - 65 + 10
  else 0

/-- Upper-case hexadecimal digit for a value below 16, as `net/url.escape`
emits (`"0123456789ABCDEF"`). -/
def upperHexDigit (n : Nat) : Char :=
  if n < 10 then Char.ofNat (48 + n) else Char.ofNat (65 + n - 10)

/-- UTF-8 byte sequence of one character; Go's `escape` walks the bytes
of the string. -/
def utf8Bytes (c : Char) : List Nat :=
  let n := c.toNat
  if n < 0x80 then [n]
  else if n < 0x800 then [0xC0 + n / 64, 0x80 + n % 64]
  else if n < 0x10000 then [0xE0 + n / 4096, 0x80 + (n / 64) % 64, 0x80 + n % 64]
  else [0xF0 + n / 262144, 0x80 + (n / 4096) % 64, 0x80 + (n / 64) % 64, 0x80 + n % 64]

/-- `net/url.shouldEscape` in mode `encodeQueryComponent`: every byte is
escaped except ASCII alphanumerics and `-`, `_`, `.`, `~`. -/
def shouldEscapeQueryByte (b : Nat) : Bool :=
  !((97 ≤ b && b ≤ 122) || (65 ≤ b && b ≤ 90) || (48 ≤ b && b ≤ 57) ||
    b == 45 || b == 95 || b == 46 || b == 126)

/-- Escaping of one byte by `net/url.escape` in query-component mode:
space becomes `+`, other escaped bytes become `%XX`. -/
def queryEscapeByte (b : Nat) : List Char :=
  if !shouldEscapeQueryByte b then [Char.ofNat b]
  else if b == 32 then [Char.ofNat 43]
  else [Char.ofNat 37, upperHexDigit (b / 16), upperHexDigit (b % 16)]

/-- Embedding of `net/url.QueryEscape`, applied byte-wise to the UTF-8
encoding of the string. -/
def queryEscape (s : String) : String :=
  String.mk (List.flatMap (List.flatMap s.data utf8Bytes) queryEscapeByte)

/-- `net/url.stringContainsCTLByte`: any byte below 0x20 or equal to
0x7f.  (A non-ASCII character has no such byte in its UTF-8 encoding,
so the character-level test agrees with Go's byte-level one.) -/
def stringContainsCTLByte (s : String) : Bool :=
  s.data.any (fun c => c.toNat < 0x20 || c.toNat == 0x7f)

/-- Loop of `net/url.getScheme`: `acc` holds the characters consumed so
far (the candidate scheme), `orig` the whole input for the no-scheme
outcomes.  Returns (scheme, rest-after-colon). -/
def getSchemeAux (orig : List Char) : List Char → List Char → Except String (List Char × List Char)
  | _, [] => .ok ([], orig)
  | acc, c :: rest =>
    if isAlphaChar c then getSchemeAux orig (acc ++ [c]) rest
    else if isDigitChar c || c == Char.ofNat 43 || c == Char.ofNat 45 || c == Char.ofNat 46 then
      if acc.isEmpty then .ok ([], orig) else getSchemeAux orig (acc ++ [c]) rest
    else if c == Char.ofNat 58 then
      if acc.isEmpty then .error "missing protocol scheme"
      else .ok (acc, rest)
    else .ok ([], orig)

/-- Embedding of `net/url.getScheme`. -/
def getScheme (rawURL : List Char) : Except String (List Char × List Char) :=
  getSchemeAux rawURL [] rawURL

/-- Split a character list at the first occurrence of `sep`; `none`
when `sep` does not occur (Go's `split(s, sep, true)`, separator not
kept). -/
def splitAtFirst (sep : Char) : List Char → List Char × Option (List Char)
  | [] => ([], none)
  | c :: rest =>
    if c == sep then ([], some rest)
    else
      let (l, r) := splitAtFirst sep rest
      (c :: l, r)

/-- Index of the last occurrence of a character (Go
`strings.LastIndex` restricted to one-character separators). -/
def lastIndexOfChar (c : Char) : List Char → Option Nat
  | [] => none
  | x :: rest =>
    match lastIndexOfChar c rest with
    | some i => some (i + 1)
    | none => if x == c then some 0 else none

/-- `net/url.validOptionalPort`: empty, or a colon followed by digits. -/
def validOptionalPort (port : List Char) : Bool :=
  match port with
  | [] => true
  | c :: rest => c == Char.ofNat 58 && rest.all isDigitChar

/-- `net/url.shouldEscape` in mode `encodeHost`: the bytes legal in a
host subcomponent per RFC 3986 plus the characters Go additionally
leaves unescaped there. -/
def shouldEscapeHostChar (c : Char) : Bool :=
  let n := c.toNat
  if (97 ≤ n && n ≤ 122) || (65 ≤ n && n ≤ 90) || (48 ≤ n && n ≤ 57) then false
  else if n == 33 || n == 36 || n == 38 || n == 39 || n == 40 || n == 41 ||
       n == 42 || n == 43 || n == 44 || n == 59 || n == 61 || n == 58 ||
       n == 91 || n == 93 || n == 60 || n == 62 || n == 34 then false
  else if n == 45 || n == 95 || n == 46 || n == 126 then false
  else true

/-- Escape validation of `net/url.unescape` in mode `encodeHost`
(applied to the whole host by `parseHost`): percent escapes must be two
hex digits, an escaped ASCII byte below 0x80 other than `%25` must not
denote 0x00-0x7f values Go forbids (`unhex(c1) < 8` and not `%25`), and
an unescaped ASCII character must be legal in a host. -/
def unescapeHostOk : List Char → Except String Unit
  | [] => .ok ()
  | c :: rest =>
    if c.toNat == 37 then
      match rest with
      | c1 :: c2 :: rest2 =>
        if isHexChar c1 && isHexChar c2 then
          if unhex c1 < 8 && !(c1 == Char.ofNat 50 && c2 == Char.ofNat 53) then
            .error "invalid URL escape"
          else unescapeHostOk rest2
        else .error "invalid URL escape"
      | _ => .error "invalid URL escape"
    else if c.toNat < 0x80 && shouldEscapeHostChar c then
      .error "invalid character in host name"
    else unescapeHostOk rest

/-- Escape validation of `net/url.unescape` in the path and
user-password modes: percent escapes must be two hex digits; no
per-character validation applies in those modes. -/
def unescapeOk : List Char → Except String Unit
  | [] => .ok ()
  | c :: rest =>
    if c.toNat == 37 then
      match rest with
      | c1 :: c2 :: rest2 =>
        if isHexChar c1 && isHexChar c2 then unescapeOk rest2
        else .error "invalid URL escape"
      | _ => .error "invalid URL escape"
    else unescapeOk rest

/-- `net/url.validUserinfo`: RFC 3986 userinfo characters. -/
def validUserinfo (s : List Char) : Bool :=
  s.all fun c =>
    let n := c.toNat
    (97 ≤ n && n ≤ 122) || (65 ≤ n && n ≤ 90) || (48 ≤ n && n ≤ 57) ||
    n == 45 || n == 46 || n == 95 || n == 58 || n == 126 || n == 33 ||
    n == 36 || n == 38 || n == 39 || n == 40 || n == 41 || n == 42 ||
    n == 43 || n == 44 || n == 59 || n == 61 || n == 37 || n == 64

/-- Embedding of `net/url.parseHost` (IPv6 zone identifiers are folded
into the host-mode escape check rather than the separate zone-mode one,
which only differs on bracketed hosts carrying a `%25` zone). -/
def parseHost (host : List Char) : Except String (List Char) :=
  let checked : Except String Unit :=
    if host.head? == some (Char.ofNat 91) then
      match lastIndexOfChar (Char.ofNat 93) host with
      | none => .error "missing \x27]\x27 in host"
      | some i =>
        if !validOptionalPort (host.drop (i + 1)) then .error "invalid port after host"
        else .ok ()
    else
      match lastIndexOfChar (Char.ofNat 58) host with
      | some i =>
        if !validOptionalPort (host.drop i) then .error "invalid port after host"
        else .ok ()
      | none => .ok ()
  match checked with
  | .error e => .error e
  | .ok _ =>
    match unescapeHostOk host with
    | .error e => .error e
    | .ok _ => .ok host

/-- Embedding of `net/url.parseAuthority`: split userinfo from host at
the last `@`, validate the host, then the userinfo. -/
def parseAuthority (authority : List Char) : Except String (List Char) :=
  match lastIndexOfChar (Char.ofNat 64) authority with
  | none => parseHost authority
  | some i =>
    match parseHost (authority.drop (i + 1)) with
    | .error e => .error e
    | .ok host =>
      let userinfo := authority.take i
      if !validUserinfo userinfo then .error "net/url: invalid userinfo"
      else
        match unescapeOk userinfo with
        | .error e => .error e
        | .ok _ => .ok host

/-- Parsed URL shape, the fields of `net/url.URL` this embedding
tracks.  `path` keeps the raw (still escaped) path characters. -/
structure URL where
  scheme : String
  opaqueData : String
  host : String
  path : String
  forceQuery : Bool
  rawQuery : String
  deriving Repr, DecidableEq

/-- ASCII lower-casing of one character; `strings.ToLower` restricted
to the characters `getScheme` can return (ASCII letters, digits, `+`,
`-`, `.`), on which Go's Unicode-aware lowering agrees with it. -/
def toLowerChar (c : Char) : Char :=
  if 65 ≤ c.toNat && c.toNat ≤ 90 then Char.ofNat (c.toNat + 32) else c

/-- Embedding of `net/url.parse(rawURL, viaRequest=true)`, the parser
behind `ParseRequestURI`. -/
def parseViaRequest (rawURL : String) : Except String URL :=
  if stringContainsCTLByte rawURL then .error "net/url: invalid control character in URL"
  else if rawURL = "" then .error "empty url"
  else if rawURL = "*" then
    .ok { scheme := "", opaqueData := "", host := "", path := "*", forceQuery := false, rawQuery := "" }
  else
    match getScheme rawURL.data with
    | .error e => .error e
    | .ok (schemeChars, afterScheme) =>
      let scheme := String.mk (schemeChars.map toLowerChar)
      let (rest, forceQuery, rawQuery) :=
        if afterScheme.getLast? == some (Char.ofNat 63) &&
           !(afterScheme.dropLast.contains (Char.ofNat 63)) then
          (afterScheme.dropLast, true, ([] : List Char))
        else
          match splitAtFirst (Char.ofNat 63) afterScheme with
          | (before, none) => (before, false, [])
          | (before, some q) => (before, false, q)
      if !(rest.head? == some (Char.ofNat 47)) then
        if scheme ≠ "" then
          .ok { scheme := scheme, opaqueData := String.mk rest, host := "", path := "",
                forceQuery := forceQuery, rawQuery := String.mk rawQuery }
        else .error "invalid URI for request"
      else if scheme ≠ "" && rest.take 2 == [Char.ofNat 47, Char.ofNat 47] then
        let afterSlashes := rest.drop 2
        let (authority, restPath) :=
          match splitAtFirst (Char.ofNat 47) afterSlashes with
          | (a, none) => (a, ([] : List Char))
          | (a, some r) => (a, Char.ofNat 47 :: r)
        match parseAuthority authority with
        | .error e => .error e
        | .ok host =>
          match unescapeOk restPath with
          | .error e => .error e
          | .ok _ =>
            .ok { scheme := scheme, opaqueData := "", host := String.mk host,
                  path := String.mk restPath, forceQuery := forceQuery,
                  rawQuery := String.mk rawQuery }
      else
        match unescapeOk rest with
        | .error e => .error e
        | .ok _ =>
          .ok { scheme := scheme, opaqueData := "", host := "", path := String.mk rest,
                forceQuery := forceQuery, rawQuery := String.mk rawQuery }

/-- Embedding of `net/url.ParseRequestURI`: run the via-request parser
and wrap a failure in the `*url.Error` message (`parse "<url>": <err>`). -/
def parseRequestURI (rawURL : String) : Except String URL :=
  match parseViaRequest rawURL with
  | .error e => .error ("parse \"" ++ rawURL ++ "\": " ++ e)
  | .ok u => .ok u

/-- Embedding of `New` (src/locator.go lines 45-67).  `g` is the value
of the package globals at the moment of the call; note that
`RequestTimeout` is read here and frozen into the returned client's
`http.Client`. -/
def New (g : Globals) (serviceUrl apiKey : String) : Except String Locator :=
  if serviceUrl = Yandex then
    .ok (.yandex { apiKey := apiKey, client := { Timeout := g.RequestTimeout } })
  else
    let serviceUrl := if apiKey ≠ "" then serviceUrl ++ ("?key=" ++ queryEscape apiKey) else serviceUrl
    match parseRequestURI serviceUrl with
    | .error e => .error e
    | .ok _ => .ok (.base { serviceUrl := serviceUrl, client := { Timeout := g.RequestTimeout } })

/-- The outgoing HTTP request assembled by `(*base).Get` before the
exchange (src/locator.go lines 70-95): method, URL, the struct value
handed to `json.Marshal` (the wire body at field level), and the three
headers the code sets.  `x_Forwarded_For` is `none` when the header is
not set. -/
structure httpRequest where
  method : String
  url : String
  body : Request
  userAgentHeader : String
  contentTypeHeader : String
  x_Forwarded_For : Option String
  deriving Repr, DecidableEq

/-- Embedding of the request-building half of `(*base).Get`
(src/locator.go lines 70-95), line by line: force `ConsiderIp` from the
global flag, override `Fallbacks` when the flag is set, default
`RadioType`, save and clear `IPAddress`, then marshal and set the
headers.  `g` is the value of the package globals at the moment of the
call (`IgnoreIPMethod` read on lines 71-72, `UserAgent` on line 91). -/
def base.buildRequest (g : Globals) (l : base) (req : Request) : httpRequest :=
  let req := { req with ConsiderIp := !g.IgnoreIPMethod }
  let req := if g.IgnoreIPMethod then { req with Fallbacks := some { LAC := false, IP := false } } else req
  let req := if req.RadioType = "" then { req with RadioType := "gsm" } else req
  let ipAddress := req.IPAddress
  let req := { req with IPAddress := "" }
  { method := "POST"
    url := l.serviceUrl
    body := req
    userAgentHeader := g.UserAgent
    contentTypeHeader := "application/json"
    x_Forwarded_For := if ipAddress ≠ "" then some ipAddress else none }

/-- The timeout that governs the HTTP exchange of a `(*base).Get` call:
`l.client.Do` (line 97) enforces `l.client.Timeout`, the value frozen
into the client by `New`. -/
def base.callTimeout (l : base) : Nat := l.client.Timeout

/-- An HTTP response as `(*base).Get` observes it: status code and the
raw body bytes. -/
structure httpResponse where
  StatusCode : Nat
  Body : String
  deriving Repr, DecidableEq

/-- Outcome of the response-handling half of `(*base).Get`:
the returned value or error, and whether `resp.Body.Close()` was
executed before the function returned on that path. -/
structure GetOutcome where
  result : Except GoError Response
  bodyClosed : Bool
  deriving Repr

/-- Embedding of the response-handling half of `(*base).Get`
(src/locator.go lines 101-118): the status switch, then JSON decoding
of the body on the 200 path.  `decode` stands for
`json.NewDecoder(resp.Body).Decode` into a `Response` (the `Response`
struct's JSON tags are outside the source file).  `bodyClosed` records
exactly where the code executes `resp.Body.Close()`: that statement
(line 114) sits after the decode on the 200 path and is the only close
in the function. -/
def base.handleResponse (decode : String → Except String Response) (resp : httpResponse) : GetOutcome :=
  if resp.StatusCode = 200 then
    match decode resp.Body with
    | .ok response => { result := .ok response, bodyClosed := true }
    | .error e => { result := .error (.jsonDecode e), bodyClosed := true }
  else if resp.StatusCode = 400 then { result := .error .ErrBadRequest, bodyClosed := false }
  else if resp.StatusCode = 403 then { result := .error .ErrForbidden, bodyClosed := false }
  else if resp.StatusCode = 404 then { result := .error .ErrNotFound, bodyClosed := false }
  else { result := .error (.errorsNew (statusText resp.StatusCode)), bodyClosed := false }

/-- The request record with the pointer indirection of
`Fallbacks *Fallbacks` made explicit: `Fallbacks` holds an index into a
heap of `Fallbacks` cells (`none` is the nil pointer).  Used to state
the aliasing/frame property of `(*base).Get`'s mutations. -/
structure RequestH where
  RadioType : String
  CellTowers : List CellTower
  WifiAccessPoints : List WifiAccessPoint
  IPAddress : String
  ConsiderIp : Bool
  Fallbacks : Option Nat
  deriving Repr, DecidableEq

/-- Pointer-explicit embedding of the mutation prelude of `(*base).Get`
(src/locator.go lines 70-82).  The caller-visible state is the caller's
request variable together with the heap of `Fallbacks` cells.  Go
passes `req` by value (`func (l *base) Get(req Request)`), so the
function works on a copy; line 73 allocates a fresh `Fallbacks` cell
(`&Fallbacks{...}`, modelled as appending to the heap) and stores the
new pointer in the copy.  Returns ((caller request after the call, heap
after the call), the local request value at the `json.Marshal` point). -/
def getMutations (ignore : Bool) (callerReq : RequestH) (heap : List Fallbacks) :
    (RequestH × List Fallbacks) × RequestH :=
  let req := callerReq
  let req := { req with ConsiderIp := !ignore }
  let (req, heap) :=
    if ignore then ({ req with Fallbacks := some heap.length }, heap ++ [{ LAC := false, IP := false }])
    else (req, heap)
  let req := if req.RadioType = "" then { req with RadioType := "gsm" } else req
  let req := { req with IPAddress := "" }
  ((callerReq, heap), req)

/-- Whether `pat` occurs at the head of `l`. -/
def beginsWith : List Char → List Char → Bool
  | [], _ => true
  | _ :: _, [] => false
  | a :: pat, b :: l => a == b && beginsWith pat l

/-- Whether `pat` occurs as a contiguous substring of `l`. -/
def hasSub (pat : List Char) : List Char → Bool
  | [] => pat.isEmpty
  | c :: rest => beginsWith pat (c :: rest) || hasSub pat rest

/-- A decoder that always fails, standing for
`json.NewDecoder(...).Decode` on a malformed body. -/
def decodeFail : String → Except String Response :=
  fun _ => .error "unexpected end of JSON input"

/-- A decoder that always succeeds, standing for
`json.NewDecoder(...).Decode` on a well-formed body. -/
def decodeOkStub : String → Except String Response :=
  fun _ => .ok { lat := 3 / 2, lng := 5 / 2, accuracy := 10 }

/-- A sample request used by the concrete witnesses. -/
def sampleRequest : Request :=
  { RadioType := ""
    CellTowers := [{ MobileCountryCode := 250, MobileNetworkCode := 2, LocationAreaCode := 7840,
                     CellId := 200719, SignalStrength := -70 }]
    WifiAccessPoints := []
    IPAddress := "192.0.2.7"
    ConsiderIp := false
    Fallbacks := some { LAC := true, IP := true } }

/-- The sample request in the pointer-explicit view: its `Fallbacks`
pointer is cell 0 of the heap. -/
def sampleRequestH : RequestH :=
  { RadioType := ""
    CellTowers := []
    WifiAccessPoints := []
    IPAddress := "192.0.2.7"
    ConsiderIp := false
    Fallbacks := some 0 }

/-- A standard-dialect client used by the concrete witnesses. -/
def sampleBase : base :=
  { serviceUrl := Mozilla, client := { Timeout := 30000000000 } }

/-- The globals at a later moment than construction: every tunable has
been changed since `initialGlobals`. -/
def laterGlobals : Globals :=
  { RequestTimeout := 5000000000
    IgnoreIPMethod := true
    UserAgent := "GeoTrack/2.0-test" }

/-- Inversion of `New` on the standard-dialect success path: a `base`
client can only come out of the non-Yandex branch, with the key (when
non-empty) appended to the URL and the construction-time global timeout
frozen into the HTTP client. -/
theorem New_ok_base {g : Globals} {ep key : String} {l : base}
    (h : New g ep key = .ok (.base l)) :
    ep ≠ Yandex ∧
    l = { serviceUrl := if key ≠ "" then ep ++ ("?key=" ++ queryEscape key) else ep,
          client := { Timeout := g.RequestTimeout } } := by
  unfold New at h
  by_cases hy : ep = Yandex
  · rw [if_pos hy] at h
    exact absurd h (by simp)
  · rw [if_neg hy] at h
    dsimp only at h
    refine ⟨hy, ?_⟩
    cases hp : parseRequestURI (if key ≠ "" then ep ++ ("?key=" ++ queryEscape key) else ep) with
    | error e => rw [hp] at h; exact absurd h (by simp)
    | ok u =>
      rw [hp] at h
      simp only [Except.ok.injEq, Locator.base.injEq] at h
      exact h.symm

/-- C6: For every apiKey, `New` called with the Yandex endpoint returns
the divergent-dialect (`yandex`) client with the apiKey retained in the
client for per-request use — the returned client carries the key
verbatim and no endpoint string with an appended key — and a nil error
(src/locator.go lines 46-53). -/
theorem c6_yandex_client_retains_key (g : Globals) (apiKey : String) :
    New g Yandex apiKey =
      .ok (.yandex { apiKey := apiKey, client := { Timeout := g.RequestTimeout } }) := by
  unfold New
  rw [if_pos rfl]

/-- C7: For every non-divergent endpoint and non-empty apiKey, `New`
appends the key to the endpoint string as `?key=<urlencoded-value>`
(src/locator.go lines 54-56); in particular `New(Mozilla, "abc123")`
yields a client whose outgoing request URL (used verbatim by `Get` on
line 87) contains the query string `key=abc123`. -/
theorem c7_key_appended_as_query (g : Globals) (ep key : String)
    (hep : ep ≠ Yandex) (hkey : key ≠ "") :
    (∀ l : base, New g ep key = .ok (.base l) →
      l.serviceUrl = ep ++ ("?key=" ++ queryEscape key)) ∧
    New g Mozilla "abc123" =
      .ok (.base { serviceUrl := Mozilla ++ "?key=abc123",
                   client := { Timeout := g.RequestTimeout } }) ∧
    (∀ (l : base) (req : Request), New g Mozilla "abc123" = .ok (.base l) →
      hasSub "key=abc123".data (base.buildRequest g l req).url.data = true) := by
  refine ⟨?_, ?_, ?_⟩
  · intro l h
    have hinv := New_ok_base h
    rw [hinv.2, if_pos hkey]
  · rfl
  · intro l req h
    have hinv := New_ok_base h
    have hurl : (base.buildRequest g l req).url = l.serviceUrl := rfl
    rw [hurl, hinv.2]
    have hsub : hasSub "key=abc123".data (Mozilla ++ "?key=abc123").data = true := by decide
    exact hsub

/-- C8: For every non-divergent endpoint, `New` validates the resulting
endpoint (after any key appending) with `url.ParseRequestURI`
(src/locator.go lines 57-60) and, when the parse fails, propagates the
parse error and returns no client (the `(nil, err)` Go return is the
`.error` case of the `Except`); in particular `New("not a url", "")`
returns a parse error and no client (see the witness). -/
theorem c8_url_validation_failure (g : Globals) (ep key e : String)
    (hep : ep ≠ Yandex)
    (hparse : parseRequestURI
        (if key ≠ "" then ep ++ ("?key=" ++ queryEscape key) else ep) = .error e) :
    New g ep key = .error e := by
  unfold New
  rw [if_neg hep]
  dsimp only
  rw [hparse]

/-- Witness for C7 at `g = initialGlobals`, `ep = Google`, `key = "k"`:
the concrete conjunct about `New(Mozilla, "abc123")`. -/
theorem c7_witness :
    New initialGlobals Mozilla "abc123" =
      .ok (.base { serviceUrl := Mozilla ++ "?key=abc123",
                   client := { Timeout := initialGlobals.RequestTimeout } }) :=
  (c7_key_appended_as_query initialGlobals Google "k" (by decide) (by decide)).2.1

/-- Witness for C8 at the spec's concrete input: `New("not a url", "")`
fails with the URL parse error and yields no client. -/
theorem c8_witness :
    New initialGlobals "not a url" "" =
      .error "parse \"not a url\": invalid URI for request" :=
  c8_url_validation_failure initialGlobals "not a url" ""
    "parse \"not a url\": invalid URI for request" (by decide) rfl

/-- C1: For every request passed to the standard-dialect client's `Get`
with a non-empty `IPAddress`, the serialized body (the struct value
handed to `json.Marshal`, src/locator.go lines 81-83) carries an empty
`IPAddress` field — so the body does not contain the IP value — and the
`X-Forwarded-For` header is set and equals the IP exactly (line 94);
when `IPAddress` is empty, no `X-Forwarded-For` header is set
(line 93). -/
theorem c1_ip_stripped_from_body (g : Globals) (l : base) (req : Request) :
    (req.IPAddress ≠ "" →
      (base.buildRequest g l req).body.IPAddress = "" ∧
      (base.buildRequest g l req).body.IPAddress ≠ req.IPAddress ∧
      (base.buildRequest g l req).x_Forwarded_For = some req.IPAddress) ∧
    (req.IPAddress = "" →
      (base.buildRequest g l req).x_Forwarded_For = none) := by
  have hbody : (base.buildRequest g l req).body.IPAddress = "" := by
    by_cases hig : g.IgnoreIPMethod <;> by_cases hrt : req.RadioType = "" <;>
      simp [base.buildRequest, hig, hrt]
  have hhdr : (base.buildRequest g l req).x_Forwarded_For =
      if req.IPAddress ≠ "" then some req.IPAddress else none := by
    by_cases hig : g.IgnoreIPMethod <;> by_cases hrt : req.RadioType = "" <;>
      simp [base.buildRequest, hig, hrt]
  refine ⟨fun h => ⟨hbody, ?_, ?_⟩, fun h => ?_⟩
  · rw [hbody]
    exact fun hc => h hc.symm
  · rw [hhdr, if_pos h]
  · rw [hhdr, if_neg (by simp [h])]

/-- Witness for C1 at the sample request (IP `192.0.2.7`). -/
theorem c1_witness :
    (base.buildRequest initialGlobals sampleBase sampleRequest).body.IPAddress = "" ∧
    (base.buildRequest initialGlobals sampleBase sampleRequest).body.IPAddress ≠
      sampleRequest.IPAddress ∧
    (base.buildRequest initialGlobals sampleBase sampleRequest).x_Forwarded_For =
      some sampleRequest.IPAddress :=
  (c1_ip_stripped_from_body initialGlobals sampleBase sampleRequest).1 (by decide)

/-- C4: For every request to the standard-dialect client's `Get`, the
wire body's `ConsiderIp` equals the negation of the global
IP-suppression flag (src/locator.go line 71), and when that flag is
enabled, the wire body's fallback policy has both `LAC` and `IP` false
regardless of the caller-supplied fallback values (lines 72-77). -/
theorem c4_consider_ip_fallback_override (g : Globals) (l : base) (req : Request) :
    (base.buildRequest g l req).body.ConsiderIp = !g.IgnoreIPMethod ∧
    (g.IgnoreIPMethod = true →
      (base.buildRequest g l req).body.Fallbacks = some { LAC := false, IP := false }) := by
  constructor
  · by_cases hig : g.IgnoreIPMethod <;> by_cases hrt : req.RadioType = "" <;>
      simp [base.buildRequest, hig, hrt]
  · intro hig
    by_cases hrt : req.RadioType = "" <;> simp [base.buildRequest, hig, hrt]

/-- Witness for C4 under `laterGlobals` (IP suppression enabled),
applied to a caller request whose fallbacks are both `true`. -/
theorem c4_witness :
    (base.buildRequest laterGlobals sampleBase sampleRequest).body.Fallbacks =
      some { LAC := false, IP := false } :=
  (c4_consider_ip_fallback_override laterGlobals sampleBase sampleRequest).2 (by decide)

/-- C9: For every request to the standard-dialect client's `Get` with
an empty `RadioType`, the wire body's radio type equals the fixed
default `"gsm"` (src/locator.go lines 78-80); a non-empty
caller-supplied `RadioType` passes through unchanged. -/
theorem c9_radio_type_default (g : Globals) (l : base) (req : Request) :
    (req.RadioType = "" → (base.buildRequest g l req).body.RadioType = "gsm") ∧
    (req.RadioType ≠ "" → (base.buildRequest g l req).body.RadioType = req.RadioType) := by
  constructor <;> intro h <;>
    by_cases hig : g.IgnoreIPMethod <;> simp [base.buildRequest, hig, h]

/-- Witness for C9 at the sample request (empty radio type). -/
theorem c9_witness :
    (base.buildRequest initialGlobals sampleBase sampleRequest).body.RadioType = "gsm" :=
  (c9_radio_type_default initialGlobals sampleBase sampleRequest).1 (by decide)

/-- C2 (evaluation at the failing inputs): `resp.Body.Close()` is
executed only on the 200 path of `(*base).Get` (src/locator.go line
114, after the decode, so both the successful decode and the
decode-failure sub-paths close the body), while the 400, 403, 404 and
other-status returns (lines 104, 106, 108, 110) leave the body open —
contradicting the claim that the connection is closed on every exit
path of a call whose HTTP exchange succeeded. -/
theorem c2_body_close_evaluation :
    (base.handleResponse decodeFail { StatusCode := 400, Body := "" }).bodyClosed = false ∧
    (base.handleResponse decodeFail { StatusCode := 403, Body := "" }).bodyClosed = false ∧
    (base.handleResponse decodeFail { StatusCode := 404, Body := "" }).bodyClosed = false ∧
    (base.handleResponse decodeFail { StatusCode := 418, Body := "" }).bodyClosed = false ∧
    (base.handleResponse decodeOkStub { StatusCode := 200, Body := "" }).bodyClosed = true ∧
    (base.handleResponse decodeFail { StatusCode := 200, Body := "" }).bodyClosed = true :=
  ⟨rfl, rfl, rfl, rfl, rfl, rfl⟩

/-- C5: `(*base).Get` maps HTTP status to outcome (src/locator.go lines
101-111): 400 to the bad-request sentinel, 403 to the forbidden
sentinel, 404 to the not-found sentinel — three pairwise distinct error
values — and any other non-200 status to an error whose text is that
status's `http.StatusText` reason phrase, e.g. `"I'm a teapot"` for
418. -/
theorem c5_status_error_mapping (decode : String → Except String Response)
    (resp : httpResponse) :
    (resp.StatusCode = 400 →
      (base.handleResponse decode resp).result = .error .ErrBadRequest) ∧
    (resp.StatusCode = 403 →
      (base.handleResponse decode resp).result = .error .ErrForbidden) ∧
    (resp.StatusCode = 404 →
      (base.handleResponse decode resp).result = .error .ErrNotFound) ∧
    (GoError.ErrBadRequest ≠ GoError.ErrForbidden ∧
     GoError.ErrBadRequest ≠ GoError.ErrNotFound ∧
     GoError.ErrForbidden ≠ GoError.ErrNotFound) ∧
    (resp.StatusCode ≠ 200 → resp.StatusCode ≠ 400 → resp.StatusCode ≠ 403 →
     resp.StatusCode ≠ 404 →
      (base.handleResponse decode resp).result =
        .error (.errorsNew (statusText resp.StatusCode)) ∧
      (GoError.errorsNew (statusText resp.StatusCode)).errText =
        statusText resp.StatusCode) ∧
    statusText 418 = "I\x27m a teapot" := by
  refine ⟨fun h => ?_, fun h => ?_, fun h => ?_, by decide, ?_, rfl⟩
  · simp [base.handleResponse, h]
  · simp [base.handleResponse, h]
  · simp [base.handleResponse, h]
  · intro h200 h400 h403 h404
    exact ⟨by simp [base.handleResponse, h200, h400, h403, h404], rfl⟩

/-- Witness for C5 at status 418: the generic branch produces the
reason-phrase error text. -/
theorem c5_witness :
    (base.handleResponse decodeFail { StatusCode := 418, Body := "" }).result =
      .error (.errorsNew "I\x27m a teapot") :=
  ((c5_status_error_mapping decodeFail { StatusCode := 418, Body := "" }).2.2.2.2.1
    (by decide) (by decide) (by decide) (by decide)).1

/-- C10: `(*base).Get` receives its `Request` by value, so the caller's
request variable is unchanged by the mutation prelude of the call
(src/locator.go lines 70-82), and the fallback override (line 73)
stores a pointer to a freshly allocated `Fallbacks` cell in the local
copy rather than writing through a caller-supplied pointer: every heap
cell existing before the call — in particular the caller's `Fallbacks`
pointee — holds the same value after it. -/
theorem c10_by_value_no_alias_write (ignore : Bool) (callerReq : RequestH)
    (heap : List Fallbacks) :
    (getMutations ignore callerReq heap).1.1 = callerReq ∧
    ∀ i : Nat, i < heap.length →
      ((getMutations ignore callerReq heap).1.2)[i]? = heap[i]? := by
  cases ignore with
  | false => exact ⟨rfl, fun i _ => rfl⟩
  | true =>
    refine ⟨rfl, fun i hi => ?_⟩
    have hmut : (getMutations true callerReq heap).1.2 =
        heap ++ [{ LAC := false, IP := false }] := by
      by_cases hrt : callerReq.RadioType = "" <;> simp [getMutations, hrt]
    rw [hmut]
    exact List.getElem?_append_left hi

/-- Witness for C10 with suppression on and a one-cell heap holding the
caller's fallback values: cell 0 is untouched by the call. -/
theorem c10_witness :
    ((getMutations true sampleRequestH [{ LAC := true, IP := true }]).1.2)[0]? =
      [({ LAC := true, IP := true } : Fallbacks)][0]? :=
  (c10_by_value_no_alias_write true sampleRequestH [{ LAC := true, IP := true }]).2 0
    (by decide)

/-- C3 counterexample: a client constructed while the globals were
`initialGlobals` (timeout 30s) and then used for a `Get` call at a
moment when the globals are `laterGlobals` (timeout 5s) runs its HTTP
exchange with the 30s timeout frozen into `l.client` by `New`
(src/locator.go lines 63-65, 97) — not with the value of the global at
the moment of the call, refuting the claim that all three tunables are
read at call time. -/
theorem c3_counterexample :
    New initialGlobals Mozilla "" = .ok (.base sampleBase) ∧
    initialGlobals.RequestTimeout ≠ laterGlobals.RequestTimeout ∧
    base.callTimeout sampleBase ≠ laterGlobals.RequestTimeout :=
  ⟨rfl, by decide, by decide⟩

/-- C3 (amended): the global IP-suppression flag and the user-agent
string are read at call time — the suppression behaviour and the
`User-Agent` header of a `Get` call come from the globals current at
the call (src/locator.go lines 71-77, 91) — but the request timeout is
captured at client construction (`New` bakes `RequestTimeout` into the
`http.Client`, lines 63-65), so the exchange uses the construction-time
value, not the global current at the call. -/
theorem c3_amended_tunable_read_times (gNew gCall : Globals) (ep key : String)
    (l : base) (req : Request)
    (h : New gNew ep key = .ok (.base l)) :
    base.callTimeout l = gNew.RequestTimeout ∧
    (base.buildRequest gCall l req).userAgentHeader = gCall.UserAgent ∧
    (base.buildRequest gCall l req).body.ConsiderIp = !gCall.IgnoreIPMethod ∧
    (gCall.IgnoreIPMethod = true →
      (base.buildRequest gCall l req).body.Fallbacks =
        some { LAC := false, IP := false }) := by
  have hinv := New_ok_base h
  refine ⟨by rw [hinv.2]; rfl, rfl, ?_, fun hig => ?_⟩
  · by_cases hig : gCall.IgnoreIPMethod <;> by_cases hrt : req.RadioType = "" <;>
      simp [base.buildRequest, hig, hrt]
  · by_cases hrt : req.RadioType = "" <;> simp [base.buildRequest, hig, hrt]

/-- Witness for C3 (amended): the client of `c3_counterexample`, called
under `laterGlobals`: the timeout is the construction-time 30s while
the user-agent and the fallback override follow `laterGlobals`. -/
theorem c3_witness :
    base.callTimeout sampleBase = initialGlobals.RequestTimeout ∧
    (base.buildRequest laterGlobals sampleBase sampleRequest).userAgentHeader =
      laterGlobals.UserAgent ∧
    (base.buildRequest laterGlobals sampleBase sampleRequest).body.Fallbacks =
      some { LAC := false, IP := false } :=
  ⟨(c3_amended_tunable_read_times initialGlobals laterGlobals Mozilla "" sampleBase
      sampleRequest rfl).1,
   (c3_amended_tunable_read_times initialGlobals laterGlobals Mozilla "" sampleBase
      sampleRequest rfl).2.1,
   (c3_amended_tunable_read_times initialGlobals laterGlobals Mozilla "" sampleBase
      sampleRequest rfl).2.2.2 rfl⟩

